import Mathlib

/-!
Verification development for the FatigueCheck drowsiness detector
(`FatigueCheck/blinkDetect.py`).

The module-level mutable globals of `blinkDetect.py` (`state`, `blinkCount`,
`drowsy`, `session_ear_values`, `session_alerts`, `current_ear`,
`session_start_time`, `session_active`, and the presence of the
`session_tracker` object) are gathered into one record `G`; each Python
function that mutates them becomes a function `... → G → G` (or returns the
record it prints, for `end_session`).  Clock readings (`datetime.now()`,
`time.time()`) become explicit rational parameters, measured in seconds.
Float arithmetic on thresholds and EAR samples is modelled exactly over `ℚ`;
the eye geometry (`eye_aspect_ratio`, which takes square roots) is modelled
over `ℝ`.
-/

namespace FatigueCheck

/-- `thresh = 0.27`, the EAR open/closed threshold (module constant). -/
def thresh : ℚ := 27 / 100

/-- `blinkTime = 0.15` seconds (module constant). -/
def blinkTime : ℚ := 3 / 20

/-- `drowsyTime = 1.5` seconds (module constant). -/
def drowsyTime : ℚ := 3 / 2

/-- `dummyFrames = 100`, the number of calibration frames (module constant). -/
def dummyFrames : ℕ := 100

/-- The record `end_session` prints: duration (in minutes, since the code
divides the second difference by 60), number of EAR readings, average EAR,
alert count, and the blink count. -/
structure Summary where
  duration : ℚ
  sample_count : ℕ
  avg_ear : ℚ
  alerts : ℕ
  blinks : ℕ
deriving DecidableEq, Repr

/-- The module globals of `blinkDetect.py` that the core mutates.
`session_tracker` is `true` when the global `session_tracker` variable holds a
`TempSessionTracker` instance (the instance itself has no fields of its own:
all its data lives in these globals). -/
structure G where
  state : ℕ
  blinkCount : ℕ
  drowsy : ℕ
  session_ear_values : List ℚ
  session_alerts : ℕ
  current_ear : ℚ
  session_start_time : Option ℚ
  session_active : Bool
  session_tracker : Bool
deriving DecidableEq, Repr

/-- The globals as initialised at module load time. -/
def initG : G :=
  { state := 0, blinkCount := 0, drowsy := 0, session_ear_values := [],
    session_alerts := 0, current_ear := 0, session_start_time := none,
    session_active := false, session_tracker := false }

/-- Python `round(q, 4)` rounds half to even; exact on the rational model. -/
def roundHalfEven (q : ℚ) : ℤ :=
  if q - ⌊q⌋ < 1 / 2 then ⌊q⌋
  else if 1 / 2 < q - ⌊q⌋ then ⌊q⌋ + 1
  else if Even ⌊q⌋ then ⌊q⌋ else ⌊q⌋ + 1

/-- `round(ear_value, 4)`: the value stored by `add_ear_value`. -/
def round4 (q : ℚ) : ℚ := (roundHalfEven (q * 10000) : ℚ) / 10000

/-- `TempSessionTracker.add_ear_value`: sets `current_ear` to the raw value and
appends the 4-decimal-rounded value (with a timestamp, which the summary never
reads and which is not modelled) to `session_ear_values`. -/
def add_ear_value (x : ℚ) (g : G) : G :=
  { g with current_ear := x,
           session_ear_values := g.session_ear_values ++ [round4 x] }

/-- `TempSessionTracker.add_alert`: increments `session_alerts`. -/
def add_alert (g : G) : G :=
  { g with session_alerts := g.session_alerts + 1 }

/-- `TempSessionTracker.__init__`: records the start time and marks the
session active.  It does not touch `session_ear_values` or `session_alerts`. -/
def trackerInit (now : ℚ) (g : G) : G :=
  { g with session_start_time := some now, session_active := true }

/-- `TempSessionTracker.end_session`: when a session is active, computes the
summary it prints (duration `(end-start)/60` minutes, reading count, average
of the stored values or `0` when there are none, alert count, blink count) and
clears `session_active`; otherwise it does nothing.  The printed record is
returned in the first component.  (`session_start_time` is always set when
`session_active` holds; `getD 0` supplies the unreachable default.) -/
def end_session (now : ℚ) (g : G) : Option Summary × G :=
  if g.session_active then
    (some { duration := (now - g.session_start_time.getD 0) / 60,
            sample_count := g.session_ear_values.length,
            avg_ear :=
              if g.session_ear_values = [] then 0
              else g.session_ear_values.sum / (g.session_ear_values.length : ℚ),
            alerts := g.session_alerts,
            blinks := g.blinkCount },
     { g with session_active := false })
  else (none, g)

/-- `start_new_session`: if a tracker is present, first calls `end_session` on
it (its printed summary is the first component), then rebinds
`session_tracker` to a fresh `TempSessionTracker` (whose constructor stamps the
start time and sets the active flag).  The code takes two successive
`datetime.now()` readings; both are modelled by the single instant `now`. -/
def start_new_session (now : ℚ) (g : G) : Option Summary × G :=
  let p := if g.session_tracker then end_session now g else (none, g)
  (p.1, { trackerInit now p.2 with session_tracker := true })

/-- `end_current_session`: ends the session, if a tracker is present, and
drops the tracker. -/
def end_current_session (now : ℚ) (g : G) : Option Summary × G :=
  if g.session_tracker then
    let p := end_session now g
    (p.1, { p.2 with session_tracker := false })
  else (none, g)

/-- `checkBlinkStatus(eyeStatus)`: the blink/drowsiness state machine, with
the calibrated thresholds `falseBlinkLimit` and `drowsyLimit` (floats in the
source, rationals here) as explicit parameters.  `eyeStatus` is `true` for
eyes open.  Alert recording happens only when the tracker is present, mirroring
the `if session_tracker:` guards. -/
def checkBlinkStatus (falseBlinkLimit drowsyLimit : ℚ) (eyeStatus : Bool)
    (g : G) : G :=
  if 0 ≤ (g.state : ℚ) ∧ (g.state : ℚ) ≤ falseBlinkLimit then
    if eyeStatus then { g with state := 0 }
    else { g with state := g.state + 1 }
  else if falseBlinkLimit ≤ (g.state : ℚ) ∧ (g.state : ℚ) < drowsyLimit then
    if eyeStatus then { g with blinkCount := g.blinkCount + 1, state := 0 }
    else { g with state := g.state + 1 }
  else
    if eyeStatus then
      if g.session_tracker then
        add_alert { g with state := 0, drowsy := 3,
                           blinkCount := g.blinkCount + 1 }
      else { g with state := 0, drowsy := 3, blinkCount := g.blinkCount + 1 }
    else
      if g.session_tracker then add_alert { g with drowsy := 3 }
      else { g with drowsy := 3 }

/-- Feed a list of per-frame eye classifications to `checkBlinkStatus`. -/
def runStream (falseBlinkLimit drowsyLimit : ℚ) (es : List Bool) (g : G) : G :=
  es.foldl (fun h e => checkBlinkStatus falseBlinkLimit drowsyLimit e h) g

/-- The EAR-dependent part of `checkEyeStatus`: given the combined EAR `ear`
computed for a face frame, record it when a tracker is present (the
`if session_tracker:` guard) and classify the frame, `eyeStatus = 1` (open)
unless `ear < thresh`. -/
def checkEyeStatus (ear : ℚ) (g : G) : Bool × G :=
  (if ear < thresh then false else true,
   if g.session_tracker then add_ear_value ear g else g)

/-- One iteration of the `__main__` monitoring loop, abstracted over the
frame's observation: `none` when `getLandmarks` reports no face (the loop
prints a lighting hint and `continue`s, touching none of the modelled
globals; it only decrements the leftover calibration counter `validFrames`),
`some ear` when a face is found and `checkEyeStatus` commits the EAR `ear`
for the frame before `checkBlinkStatus` runs. -/
def loopStep (falseBlinkLimit drowsyLimit : ℚ) (obs : Option ℚ) (g : G) : G :=
  match obs with
  | none => g
  | some ear =>
      checkBlinkStatus falseBlinkLimit drowsyLimit
        (checkEyeStatus ear g).1 (checkEyeStatus ear g).2

/-- Feed a list of per-frame observations to the monitoring loop. -/
def runLoop (falseBlinkLimit drowsyLimit : ℚ) (obss : List (Option ℚ))
    (g : G) : G :=
  obss.foldl (fun h o => loopStep falseBlinkLimit drowsyLimit o h) g

/-- The manual reset (`r` key in the monitoring loop): zeroes the counter and
the drowsy flag.  (`ALARM_ON` and the alarm thread queue are not modelled.) -/
def manualReset (g : G) : G :=
  { g with state := 0, drowsy := 0 }

/-- An input to the monitoring loop for the monotonicity claim: either a
per-frame eye classification or a manual reset. -/
inductive Inp where
  | frame (e : Bool)
  | reset
deriving DecidableEq, Repr

/-- Dispatch one input. -/
def stepInp (falseBlinkLimit drowsyLimit : ℚ) (g : G) : Inp → G
  | Inp.frame e => checkBlinkStatus falseBlinkLimit drowsyLimit e g
  | Inp.reset => manualReset g

/-- Feed a list of inputs (classifications and resets). -/
def runInp (falseBlinkLimit drowsyLimit : ℚ) (is : List Inp) (g : G) : G :=
  is.foldl (stepInp falseBlinkLimit drowsyLimit) g

/-- One `capture.read()` during calibration: `none` when the read fails
(`not ret or frame is None`), `some none` when the frame yields no face
(`landmarks == 0`), `some (some t)` when a face is found after `t` seconds of
landmark latency. -/
abbrev CalibRead := Option (Option ℚ)

/-- The module-level calibration `while` loop (lines 262-293): runs until
`validFrames` reaches `dummyFrames`, breaking out on a failed read (and when
the capture source is exhausted, since the next read then fails).  A no-face
frame undoes its own `validFrames += 1`; a face frame accumulates its latency
into `totalTime`, which the loop returns.  (The `cv2.waitKey` escape-key exits
in the no-face branch are not modelled.) -/
def calibrationLoop : List CalibRead → ℕ → ℚ → ℚ
  | [], _, totalTime => totalTime
  | r :: rest, validFrames, totalTime =>
    if validFrames < dummyFrames then
      match r with
      | none => totalTime
      | some none => calibrationLoop rest validFrames totalTime
      | some (some t) => calibrationLoop rest (validFrames + 1) (totalTime + t)
    else totalTime

/-- The module-level threshold computation after the calibration loop:
`spf = totalTime/dummyFrames`, then `drowsyLimit = drowsyTime/spf` and
`falseBlinkLimit = blinkTime/spf`.  When `spf = 0` the Python float division
`drowsyTime/spf` raises `ZeroDivisionError` and the program dies before the
monitoring loop: that outcome is `none`.  Otherwise the program proceeds to
monitoring with the returned `(spf, drowsyLimit, falseBlinkLimit)`. -/
def calibrate (reads : List CalibRead) : Option (ℚ × ℚ × ℚ) :=
  let totalTime := calibrationLoop reads 0 0
  let spf := totalTime / (dummyFrames : ℚ)
  if spf = 0 then none
  else some (spf, drowsyTime / spf, blinkTime / spf)

/-- The detector state at the start of the monitoring loop, with blink count
`b`: counter `0`, drowsy flag clear, and the session tracker present (it is
created right before the loop). -/
def startState (b : ℕ) : G :=
  { initG with blinkCount := b, session_tracker := true }

/-- The first `k` classifications of the end-to-end scenario stream:
25 eyes-closed frames followed by one eyes-open frame (`k ≤ 26`). -/
def scenarioInputs (k : ℕ) : List Bool :=
  List.replicate (min k 25) false ++ List.replicate (k - 25) true

/-- Add `n` to the blink count, leaving everything else fixed (used to reduce
statements about a generic starting blink count to the zero count). -/
def addB (n : ℕ) (g : G) : G :=
  { g with blinkCount := g.blinkCount + n }

/-- Record a list of EAR samples in order (`add_ear_value` per sample). -/
def recordAll (xs : List ℚ) (g : G) : G :=
  xs.foldl (fun h x => add_ear_value x h) g

/-- A global state left behind by a previous session: one recorded sample,
one alert, session active, tracker present. -/
def gPrev : G :=
  { initG with session_ear_values := [1/2], session_alerts := 1,
               session_start_time := some 0, session_active := true,
               session_tracker := true }

/-- `dist.euclidean` on 2D points. -/
noncomputable def euclidean (p q : ℝ × ℝ) : ℝ :=
  Real.sqrt ((p.1 - q.1) ^ 2 + (p.2 - q.2) ^ 2)

/-- `eye_aspect_ratio(eye)`: `A = ‖p1-p5‖`, `B = ‖p2-p4‖`, `C = ‖p0-p3‖`,
result `(A+B)/(2C)`.  The source has no guard on `C`; its distances are numpy
floats, whose division by a zero denominator yields a non-finite float rather
than raising an exception, so the function returns a (junk) value on every
input.  The result is wrapped in `Option` so that an explicit failure would
have a representation (`none`), which the source never produces; Lean's total
real division (`x / 0 = 0`) stands in for the non-finite junk value. -/
noncomputable def eye_aspect_ratio (eye : Fin 6 → ℝ × ℝ) : Option ℝ :=
  some ((euclidean (eye 1) (eye 5) + euclidean (eye 2) (eye 4)) /
        (2 * euclidean (eye 0) (eye 3)))

/-- Modelled from the spec: the EAR calculator with the degenerate-geometry
guard the spec requires, failing (with `none`) when the horizontal distance
`‖p0-p3‖` is zero, and returning `(‖p1-p5‖ + ‖p2-p4‖) / (2·‖p0-p3‖)`
otherwise. -/
noncomputable def eyeAspectRatioGuarded (eye : Fin 6 → ℝ × ℝ) : Option ℝ :=
  if euclidean (eye 0) (eye 3) = 0 then none
  else some ((euclidean (eye 1) (eye 5) + euclidean (eye 2) (eye 4)) /
             (2 * euclidean (eye 0) (eye 3)))

/-- A degenerate eye contour: all six landmarks coincide, so the horizontal
distance `‖p0-p3‖` is zero. -/
noncomputable def degenerateEye : Fin 6 → ℝ × ℝ := fun _ => (0, 0)

/-- A non-degenerate eye contour: `p3 = (1,0)` and every other point at the
origin, so `‖p0-p3‖ = 1`. -/
noncomputable def sampleEye : Fin 6 → ℝ × ℝ := fun i =>
  if i = 3 then (1, 0) else (0, 0)

/-! ### Helper lemmas -/

/-- The state machine never reads the blink count: a shift of the blink count
commutes with one step. -/
theorem checkBlinkStatus_addB (fbl dl : ℚ) (e : Bool) (n : ℕ) (g : G) :
    checkBlinkStatus fbl dl e (addB n g) = addB n (checkBlinkStatus fbl dl e g) := by
  cases g
  simp only [checkBlinkStatus, addB, add_alert]
  split_ifs <;> simp <;> omega

/-- Blink-count shifts commute with whole classification streams. -/
theorem runStream_addB (fbl dl : ℚ) (es : List Bool) (n : ℕ) (g : G) :
    runStream fbl dl es (addB n g) = addB n (runStream fbl dl es g) := by
  induction es generalizing g with
  | nil => rfl
  | cons e rest ih =>
      have h1 : runStream fbl dl (e :: rest) (addB n g) =
          runStream fbl dl rest (checkBlinkStatus fbl dl e (addB n g)) := rfl
      have h2 : runStream fbl dl (e :: rest) g =
          runStream fbl dl rest (checkBlinkStatus fbl dl e g) := rfl
      rw [h1, h2, checkBlinkStatus_addB, ih]

/-- A run of `k` eyes-closed frames whose intermediate counters all stay below
`drowsyLimit` just advances the counter by `k` and touches nothing else. -/
theorem runStream_replicate_false (fbl dl : ℚ) :
    ∀ (k : ℕ) (g : G), (∀ j : ℕ, j < k → ((g.state + j : ℕ) : ℚ) < dl) →
      runStream fbl dl (List.replicate k false) g = { g with state := g.state + k } := by
  intro k
  induction k with
  | zero => intro g _; rfl
  | succ k ih =>
      intro g h
      obtain ⟨st, bc, dr, evs, al, ce, sst, sa, str⟩ := g
      have h0 : ((st : ℚ)) < dl := by
        have := h 0 (Nat.succ_pos k)
        simpa using this
      have hstep : checkBlinkStatus fbl dl false ⟨st, bc, dr, evs, al, ce, sst, sa, str⟩ =
          ⟨st + 1, bc, dr, evs, al, ce, sst, sa, str⟩ := by
        unfold checkBlinkStatus
        rcases le_or_lt (st : ℚ) fbl with hle | hlt
        · rw [if_pos ⟨Nat.cast_nonneg _, hle⟩]
          rfl
        · rw [if_neg (fun hc => absurd hc.2 (not_le_of_lt hlt)),
              if_pos ⟨le_of_lt hlt, h0⟩]
          rfl
      have hsplit : runStream fbl dl (List.replicate (k + 1) false)
            ⟨st, bc, dr, evs, al, ce, sst, sa, str⟩ =
          runStream fbl dl (List.replicate k false)
            (checkBlinkStatus fbl dl false ⟨st, bc, dr, evs, al, ce, sst, sa, str⟩) := by
        rw [List.replicate_succ]
        rfl
      rw [hsplit, hstep, ih]
      · show (⟨st + 1 + k, bc, dr, evs, al, ce, sst, sa, str⟩ : G) =
          ⟨st + (k + 1), bc, dr, evs, al, ce, sst, sa, str⟩
        congr 1
        omega
      · intro j hj
        have hn : st + 1 + j = st + (j + 1) := by omega
        show ((st + 1 + j : ℕ) : ℚ) < dl
        rw [hn]
        exact h (j + 1) (by omega)

/-- `recordAll` appends the 4-decimal-rounded samples and leaves the other
session fields alone. -/
theorem recordAll_fields (xs : List ℚ) : ∀ g : G,
    (recordAll xs g).session_ear_values = g.session_ear_values ++ xs.map round4 ∧
    (recordAll xs g).session_alerts = g.session_alerts ∧
    (recordAll xs g).session_active = g.session_active ∧
    (recordAll xs g).session_start_time = g.session_start_time ∧
    (recordAll xs g).blinkCount = g.blinkCount := by
  induction xs with
  | nil => intro g; simp [recordAll]
  | cons x rest ih =>
      intro g
      have h : recordAll (x :: rest) g = recordAll rest (add_ear_value x g) := rfl
      rcases ih (add_ear_value x g) with ⟨h1, h2, h3, h4, h5⟩
      rw [h]
      refine ⟨?_, ?_, ?_, ?_, ?_⟩
      · rw [h1]
        show (g.session_ear_values ++ [round4 x]) ++ rest.map round4 =
          g.session_ear_values ++ round4 x :: rest.map round4
        simp
      · rw [h2]; rfl
      · rw [h3]; rfl
      · rw [h4]; rfl
      · rw [h5]; rfl

/-! ### Claims -/

/-- C9 (confirmed): a frame on which the landmark provider reports no face
leaves the whole modelled global state unchanged — the closed-frame counter is
not incremented, blink count and drowsy flag are untouched, and no EAR sample
is appended — and a whole observation stream acts exactly like the stream of
its face-frames only. -/
theorem noFace_frames_skipped (falseBlinkLimit drowsyLimit : ℚ) :
    (∀ g : G, loopStep falseBlinkLimit drowsyLimit none g = g) ∧
    (∀ (obss : List (Option ℚ)) (g : G),
      runLoop falseBlinkLimit drowsyLimit obss g =
        runLoop falseBlinkLimit drowsyLimit (obss.filter Option.isSome) g) := by
  refine ⟨fun g => rfl, ?_⟩
  intro obss
  induction obss with
  | nil => intro g; rfl
  | cons o rest ih =>
      intro g
      cases o with
      | none =>
          have h1 : runLoop falseBlinkLimit drowsyLimit (none :: rest) g =
              runLoop falseBlinkLimit drowsyLimit rest g := rfl
          have h2 : (none :: rest).filter Option.isSome = rest.filter Option.isSome := by
            simp [List.filter]
          rw [h1, h2]
          exact ih g
      | some ear =>
          have h1 : runLoop falseBlinkLimit drowsyLimit (some ear :: rest) g =
              runLoop falseBlinkLimit drowsyLimit rest
                (loopStep falseBlinkLimit drowsyLimit (some ear) g) := rfl
          have h2 : (some ear :: rest).filter Option.isSome =
              some ear :: rest.filter Option.isSome := by
            simp [List.filter]
          rw [h1, h2]
          have h3 : runLoop falseBlinkLimit drowsyLimit
              (some ear :: rest.filter Option.isSome) g =
              runLoop falseBlinkLimit drowsyLimit (rest.filter Option.isSome)
                (loopStep falseBlinkLimit drowsyLimit (some ear) g) := rfl
          rw [h3]
          exact ih _

/-- C10 (confirmed): one `checkBlinkStatus` step leaves the blink count
unchanged or increments it by exactly one, the manual reset never changes it,
and hence the blink count never decreases over any stream of classifications
and resets. -/
theorem blinkCount_monotone (falseBlinkLimit drowsyLimit : ℚ) :
    (∀ (e : Bool) (g : G),
        (checkBlinkStatus falseBlinkLimit drowsyLimit e g).blinkCount = g.blinkCount ∨
        (checkBlinkStatus falseBlinkLimit drowsyLimit e g).blinkCount = g.blinkCount + 1) ∧
    (∀ g : G, (manualReset g).blinkCount = g.blinkCount) ∧
    (∀ (inputs : List Inp) (g : G),
        g.blinkCount ≤ (runInp falseBlinkLimit drowsyLimit inputs g).blinkCount) := by
  have hstep : ∀ (e : Bool) (g : G),
      (checkBlinkStatus falseBlinkLimit drowsyLimit e g).blinkCount = g.blinkCount ∨
      (checkBlinkStatus falseBlinkLimit drowsyLimit e g).blinkCount = g.blinkCount + 1 := by
    intro e g
    unfold checkBlinkStatus add_alert
    split_ifs <;> simp
  refine ⟨hstep, fun g => rfl, ?_⟩
  intro inputs
  induction inputs with
  | nil => intro g; exact le_refl _
  | cons i rest ih =>
      intro g
      have h1 : g.blinkCount ≤ (stepInp falseBlinkLimit drowsyLimit g i).blinkCount := by
        cases i with
        | frame e =>
            have he : stepInp falseBlinkLimit drowsyLimit g (Inp.frame e) =
                checkBlinkStatus falseBlinkLimit drowsyLimit e g := rfl
            rw [he]
            rcases hstep e g with h | h <;> omega
        | reset => exact le_of_eq rfl
      have h2 : runInp falseBlinkLimit drowsyLimit (i :: rest) g =
          runInp falseBlinkLimit drowsyLimit rest (stepInp falseBlinkLimit drowsyLimit g i) := rfl
      rw [h2]
      exact le_trans h1 (ih _)

set_option maxRecDepth 4000 in
/-- C1 (counterexample): in the end-to-end scenario (thresholds 3 and 20,
25 closed frames then 1 open frame from the initial state), the claim's drowsy
timeline is false on the code: the drowsy flag is NOT yet set after frame 20
(the code only enters the alert branch on frame 21, when the counter already
equals `drowsyLimit`), and it is NOT cleared on the open frame 26 (the code
re-assigns `drowsy = 3` on the eyes-open branch as well). -/
theorem scenario_drowsy_window_counterexample :
    ¬ (((runStream 3 20 (scenarioInputs 20) (startState 0)).drowsy ≠ 0) ∧
       ((runStream 3 20 (scenarioInputs 26) (startState 0)).drowsy = 0)) := by
  decide

set_option maxRecDepth 40000 in
/-- C1 (amended): with thresholds 3 and 20, feeding 25 eyes-closed frames and
then 1 eyes-open frame from counter 0, blink count `b`, drowsy flag clear:
the blink count is `b+1` after the final frame, and the drowsy flag is set
exactly from frame 21 on — false through frame 20, true from frame 21 through
frame 25 (so set true exactly once, at frame 21), and still true at frame 26:
the open frame does not clear it (only the manual reset does). -/
theorem scenario_drowsy_window (b : ℕ) :
    (runStream 3 20 (scenarioInputs 26) (startState b)).blinkCount = b + 1 ∧
    (∀ k, k ≤ 26 →
      ((runStream 3 20 (scenarioInputs k) (startState b)).drowsy ≠ 0 ↔ 21 ≤ k)) := by
  have hsh : ∀ k, runStream 3 20 (scenarioInputs k) (startState b) =
      addB b (runStream 3 20 (scenarioInputs k) (startState 0)) := by
    intro k
    have h0 : startState b = addB b (startState 0) := by
      show (⟨0, b, 0, [], 0, 0, none, false, true⟩ : G) =
        ⟨0, 0 + b, 0, [], 0, 0, none, false, true⟩
      congr 1
      omega
    rw [h0, runStream_addB]
  constructor
  · rw [hsh]
    show (runStream 3 20 (scenarioInputs 26) (startState 0)).blinkCount + b = b + 1
    have h1 : (runStream 3 20 (scenarioInputs 26) (startState 0)).blinkCount = 1 := by
      decide
    omega
  · intro k hk
    rw [hsh]
    show (runStream 3 20 (scenarioInputs k) (startState 0)).drowsy ≠ 0 ↔ 21 ≤ k
    exact (by decide :
      ∀ k, k ≤ 26 →
        ((runStream 3 20 (scenarioInputs k) (startState 0)).drowsy ≠ 0 ↔ 21 ≤ k)) k hk

/-- C1 (witness for the amended theorem): the concrete instance at starting
blink count 0 and frame 21. -/
theorem scenario_drowsy_window_witness :
    (runStream 3 20 (scenarioInputs 26) (startState 0)).blinkCount = 0 + 1 ∧
    ((runStream 3 20 (scenarioInputs 21) (startState 0)).drowsy ≠ 0 ↔ 21 ≤ 21) :=
  ⟨(scenario_drowsy_window 0).1, (scenario_drowsy_window 0).2 21 (by norm_num)⟩

set_option maxRecDepth 4000 in
/-- C2 (counterexample): with `falseBlinkLimit = 3` and `drowsyLimit = 20`,
a run of exactly 3 closed frames followed by one open frame does NOT increment
the blink count: the first branch of `checkBlinkStatus` is entered for
`state <= falseBlinkLimit` (inclusive), so the open frame at counter 3 resets
the counter without counting a blink. -/
theorem blink_boundary_counterexample :
    ¬ ((runStream 3 20 (List.replicate 3 false ++ [true])
        (startState 0)).blinkCount = 0 + 1) := by
  decide

/-- C2 (amended): for an integer threshold `falseBlinkLimit = n ≥ 1` (with
`n + 1 < drowsyLimit`) and any starting blink count `b`, a run of exactly `n`
closed frames from counter 0 followed by one open frame leaves the blink count
at `b` (no increment) with counter 0; a blink is only counted for a strictly
longer run: `n + 1` closed frames followed by one open frame give blink count
`b + 1` and counter 0; and `n - 1` closed frames followed by open also leave
the count at `b`. -/
theorem blink_boundary (n b : ℕ) (dl : ℚ) (hn : 1 ≤ n) (hdl : (n : ℚ) + 1 < dl) :
    ((runStream (n : ℚ) dl (List.replicate n false ++ [true])
        (startState b)).blinkCount = b ∧
     (runStream (n : ℚ) dl (List.replicate n false ++ [true])
        (startState b)).state = 0) ∧
    ((runStream (n : ℚ) dl (List.replicate (n + 1) false ++ [true])
        (startState b)).blinkCount = b + 1 ∧
     (runStream (n : ℚ) dl (List.replicate (n + 1) false ++ [true])
        (startState b)).state = 0) ∧
    (runStream (n : ℚ) dl (List.replicate (n - 1) false ++ [true])
        (startState b)).blinkCount = b := by
  have hap : ∀ (L : List Bool) (g : G),
      runStream (n : ℚ) dl (L ++ [true]) g =
        checkBlinkStatus (n : ℚ) dl true (runStream (n : ℚ) dl L g) := by
    intro L g
    simp [runStream, List.foldl_append]
  have hrun : ∀ m : ℕ, m ≤ n + 1 →
      runStream (n : ℚ) dl (List.replicate m false) (startState b) =
        { startState b with state := m } := by
    intro m hm
    have harg : ∀ j : ℕ, j < m → (((startState b).state + j : ℕ) : ℚ) < dl := by
      intro j hj
      have hz : (startState b).state + j = j := by
        show 0 + j = j
        omega
      rw [hz]
      have hjn : j ≤ n := by omega
      have hq : (j : ℚ) ≤ (n : ℚ) := by exact_mod_cast hjn
      linarith
    have h := runStream_replicate_false (n : ℚ) dl m (startState b) harg
    have hz : (startState b).state + m = m := by
      show 0 + m = m
      omega
    rw [hz] at h
    exact h
  have hA : checkBlinkStatus (n : ℚ) dl true { startState b with state := n } =
      { startState b with state := 0 } := by
    unfold checkBlinkStatus
    rw [if_pos ⟨Nat.cast_nonneg _, le_refl _⟩]
    rfl
  have hB : checkBlinkStatus (n : ℚ) dl true { startState b with state := n + 1 } =
      { startState b with blinkCount := b + 1, state := 0 } := by
    unfold checkBlinkStatus
    have hnotle : ¬ (((n + 1 : ℕ) : ℚ) ≤ (n : ℚ)) := by
      push_cast
      linarith
    have hle2 : (n : ℚ) ≤ ((n + 1 : ℕ) : ℚ) := by
      push_cast
      linarith
    have hlt2 : ((n + 1 : ℕ) : ℚ) < dl := by
      push_cast
      linarith
    rw [if_neg (fun hc => hnotle hc.2), if_pos ⟨hle2, hlt2⟩]
    rfl
  have hC : checkBlinkStatus (n : ℚ) dl true { startState b with state := n - 1 } =
      { startState b with state := 0 } := by
    unfold checkBlinkStatus
    have hle : ((n - 1 : ℕ) : ℚ) ≤ (n : ℚ) := by
      exact_mod_cast Nat.sub_le n 1
    rw [if_pos ⟨Nat.cast_nonneg _, hle⟩]
    rfl
  refine ⟨⟨?_, ?_⟩, ⟨?_, ?_⟩, ?_⟩
  · rw [hap, hrun n (by omega), hA]
    rfl
  · rw [hap, hrun n (by omega), hA]
  · rw [hap, hrun (n + 1) (by omega), hB]
  · rw [hap, hrun (n + 1) (by omega), hB]
  · rw [hap, hrun (n - 1) (by omega), hC]
    rfl


/-- C2 (witness for the amended theorem): the instance `n = 3`, `b = 5`,
`drowsyLimit = 20`. -/
theorem blink_boundary_witness :
    ((runStream ((3 : ℕ) : ℚ) 20 (List.replicate 3 false ++ [true])
        (startState 5)).blinkCount = 5 ∧
     (runStream ((3 : ℕ) : ℚ) 20 (List.replicate 3 false ++ [true])
        (startState 5)).state = 0) ∧
    ((runStream ((3 : ℕ) : ℚ) 20 (List.replicate (3 + 1) false ++ [true])
        (startState 5)).blinkCount = 5 + 1 ∧
     (runStream ((3 : ℕ) : ℚ) 20 (List.replicate (3 + 1) false ++ [true])
        (startState 5)).state = 0) ∧
    (runStream ((3 : ℕ) : ℚ) 20 (List.replicate (3 - 1) false ++ [true])
        (startState 5)).blinkCount = 5 :=
  blink_boundary 3 5 20 (by norm_num) (by norm_num)

set_option maxRecDepth 4000 in
/-- C3 (counterexample): a single drowsy episode produces more than one alert:
with thresholds 3 and 20 and the tracker present, a stream of 22 closed frames
(one uninterrupted episode) already increments the session alert count twice —
`add_alert` runs on frame 21 and again on frame 22 — contradicting "at most
one alert event per drowsy episode". -/
theorem alert_cadence_counterexample :
    ¬ ((runStream 3 20 (List.replicate 22 false)
        (startState 0)).session_alerts ≤ 1) := by
  decide

/-- C3 (amended): with the tracker present, `checkBlinkStatus` increments the
session alert count on EVERY frame dispatched while the counter is in the
drowsy region (neither `state ≤ falseBlinkLimit` nor `state < drowsyLimit`),
for closed frames and for the episode-ending open frame alike, and on no other
frame — the alert is per-frame, not per-episode. -/
theorem alert_cadence_per_frame (falseBlinkLimit drowsyLimit : ℚ) (e : Bool)
    (g : G) (htr : g.session_tracker = true) :
    ((¬ (g.state : ℚ) ≤ falseBlinkLimit) → (¬ (g.state : ℚ) < drowsyLimit) →
      (checkBlinkStatus falseBlinkLimit drowsyLimit e g).session_alerts =
        g.session_alerts + 1) ∧
    (((g.state : ℚ) ≤ falseBlinkLimit ∨ (g.state : ℚ) < drowsyLimit) →
      (checkBlinkStatus falseBlinkLimit drowsyLimit e g).session_alerts =
        g.session_alerts) := by
  constructor
  · intro h1 h2
    unfold checkBlinkStatus
    rw [if_neg (fun hc => h1 hc.2), if_neg (fun hc => h2 hc.2)]
    cases e <;> simp [htr, add_alert]
  · intro h
    unfold checkBlinkStatus
    rcases le_or_lt (g.state : ℚ) falseBlinkLimit with hle | hlt
    · rw [if_pos ⟨Nat.cast_nonneg _, hle⟩]
      cases e <;> rfl
    · have hdl : (g.state : ℚ) < drowsyLimit := by
        rcases h with h | h
        · exact absurd h (not_le_of_lt hlt)
        · exact h
      rw [if_neg (fun hc => absurd hc.2 (not_le_of_lt hlt)),
          if_pos ⟨le_of_lt hlt, hdl⟩]
      cases e <;> rfl

/-- C3 (witness for the amended theorem): at counter 20 with thresholds 3 and
20, a closed frame adds exactly one alert. -/
theorem alert_cadence_per_frame_witness :
    (checkBlinkStatus 3 20 false
        { initG with state := 20, session_tracker := true }).session_alerts =
      ({ initG with state := 20, session_tracker := true } : G).session_alerts + 1 := by
  have h := alert_cadence_per_frame 3 20 false
    { initG with state := 20, session_tracker := true } rfl
  refine h.1 ?_ ?_
  · show ¬ (((20 : ℕ) : ℚ) ≤ 3)
    norm_num
  · show ¬ (((20 : ℕ) : ℚ) < 20)
    norm_num

/-- C4 (counterexample): on a degenerate eye contour with zero horizontal
distance `‖p0-p3‖`, `eye_aspect_ratio` does not fail — there is no guard, so
it still returns a value (the unguarded quotient with zero denominator),
contradicting "fails explicitly (returns a sentinel or raises)". -/
theorem ear_guard_counterexample :
    euclidean (degenerateEye 0) (degenerateEye 3) = 0 ∧
    eye_aspect_ratio degenerateEye ≠ none := by
  constructor
  · show Real.sqrt (((0 : ℝ) - 0) ^ 2 + ((0 : ℝ) - 0) ^ 2) = 0
    simp
  · simp [eye_aspect_ratio]

/-- C4 (amended): `eye_aspect_ratio` is a pure function that never fails: it
returns a value on every landmark sextuple, including degenerate ones (the
zero-denominator division is unguarded), and on every sextuple with non-zero
horizontal span it agrees with the spec's guarded calculator
`(‖p1-p5‖ + ‖p2-p4‖) / (2·‖p0-p3‖)`. -/
theorem ear_no_guard :
    (∀ eye : Fin 6 → ℝ × ℝ, (eye_aspect_ratio eye).isSome = true) ∧
    (∀ eye : Fin 6 → ℝ × ℝ, euclidean (eye 0) (eye 3) ≠ 0 →
      eye_aspect_ratio eye = eyeAspectRatioGuarded eye) := by
  constructor
  · intro eye
    rfl
  · intro eye h
    unfold eyeAspectRatioGuarded
    rw [if_neg h]
    rfl

/-- C4 (witness for the amended theorem): on the non-degenerate `sampleEye`
(horizontal span 1) the code's calculator agrees with the guarded one. -/
theorem ear_no_guard_witness :
    eye_aspect_ratio sampleEye = eyeAspectRatioGuarded sampleEye := by
  have hne : euclidean (sampleEye 0) (sampleEye 3) ≠ 0 := by
    have h1 : euclidean (sampleEye 0) (sampleEye 3) = 1 := by
      show Real.sqrt (((0 : ℝ) - 1) ^ 2 + ((0 : ℝ) - 0) ^ 2) = 1
      have h2 : ((0 : ℝ) - 1) ^ 2 + ((0 : ℝ) - 0) ^ 2 = 1 := by norm_num
      rw [h2, Real.sqrt_one]
    rw [h1]
    norm_num
  exact ear_no_guard.2 sampleEye hne

/-- C5 (counterexample): when the capture source dies after yielding a single
face frame (latency 1s) — far short of the required 100 calibration frames —
the calibration loop just breaks and the program PROCEEDS to the monitoring
loop with thresholds derived from the partial total (`spf = 1/100`,
`drowsyLimit = 150`, `falseBlinkLimit = 15`), contradicting "calibration fails
fatally". -/
theorem calibration_fatal_counterexample :
    calibrate [some (some 1)] ≠ none := by
  have hl : calibrationLoop [some (some 1)] 0 0 = 1 := by
    simp [calibrationLoop, dummyFrames]
  simp only [calibrate]
  rw [hl]
  norm_num [dummyFrames]
  exact fun hc => Option.noConfusion hc

/-- C5 (amended): a capture failure during calibration only breaks the loop;
the program then proceeds with `spf = totalTime/100` and the limits derived
from whatever partial `totalTime` accumulated.  It dies before monitoring
(with a `ZeroDivisionError` at `drowsyTime/spf`) exactly when the accumulated
total is zero, e.g. when no face frame was obtained at all. -/
theorem calibration_partial_proceeds :
    (∀ reads : List CalibRead, calibrationLoop reads 0 0 = 0 →
      calibrate reads = none) ∧
    (∀ (reads : List CalibRead) (t : ℚ), calibrationLoop reads 0 0 = t → t ≠ 0 →
      calibrate reads = some (t / 100, 150 / t, 15 / t)) := by
  constructor
  · intro reads h
    simp only [calibrate]
    rw [h]
    norm_num
  · intro reads t h ht
    simp only [calibrate]
    rw [h]
    have hd : ((dummyFrames : ℕ) : ℚ) = 100 := by norm_num [dummyFrames]
    have hspf : t / ((dummyFrames : ℕ) : ℚ) ≠ 0 := by
      rw [hd]
      intro hc
      rcases div_eq_zero_iff.mp hc with h0 | h0
      · exact ht h0
      · norm_num at h0
    rw [if_neg hspf]
    have h1 : drowsyTime / (t / ((dummyFrames : ℕ) : ℚ)) = 150 / t := by
      rw [div_div_eq_mul_div]
      have hm : drowsyTime * ((dummyFrames : ℕ) : ℚ) = 150 := by
        norm_num [drowsyTime, dummyFrames]
      rw [hm]
    have h2 : blinkTime / (t / ((dummyFrames : ℕ) : ℚ)) = 15 / t := by
      rw [div_div_eq_mul_div]
      have hm : blinkTime * ((dummyFrames : ℕ) : ℚ) = 15 := by
        norm_num [blinkTime, dummyFrames]
      rw [hm]
    rw [h1, h2, hd]

/-- C5 (witness for the amended theorem): the single-frame capture-death
instance. -/
theorem calibration_partial_proceeds_witness :
    calibrate [some (some 1)] = some (1 / 100, 150, 15) := by
  have hl : calibrationLoop [some (some 1)] 0 0 = 1 := by
    simp [calibrationLoop, dummyFrames]
  have h := calibration_partial_proceeds.2 [some (some 1)] 1 hl (by norm_num)
  rw [h]
  norm_num

/-- C6 (counterexample): starting a new session does NOT produce a record with
an empty sample sequence and zero alert count: from a state left by a previous
session (one sample, one alert), `start_new_session` keeps the global
`session_ear_values` and `session_alerts` untouched — the constructor never
clears them. -/
theorem fresh_session_counterexample :
    ¬ (((start_new_session 5 gPrev).2.session_ear_values = []) ∧
       ((start_new_session 5 gPrev).2.session_alerts = 0)) := by
  intro hc
  have h1 : ([1/2] : List ℚ) = [] := hc.1
  exact List.noConfusion h1

/-- C6 (amended): `start_new_session` ends any active session and opens a new
one (active, fresh start time, tracker present), but carries the process-global
sample list and alert count over unchanged: every sample and alert recorded in
previous sessions remains and reappears in the new session's eventual
summary. -/
theorem fresh_session_carryover (g : G) (now t2 : ℚ) :
    ((start_new_session now g).2.session_ear_values = g.session_ear_values) ∧
    ((start_new_session now g).2.session_alerts = g.session_alerts) ∧
    ((start_new_session now g).2.session_active = true) ∧
    ((start_new_session now g).2.session_start_time = some now) ∧
    ((start_new_session now g).2.session_tracker = true) ∧
    ((end_session t2 (start_new_session now g).2).1 =
      some { duration := (t2 - now) / 60,
             sample_count := g.session_ear_values.length,
             avg_ear := if g.session_ear_values = [] then 0
                        else g.session_ear_values.sum / (g.session_ear_values.length : ℚ),
             alerts := g.session_alerts, blinks := g.blinkCount }) := by
  have hmid : (start_new_session now g).2 =
      { g with session_start_time := some now, session_active := true,
               session_tracker := true } := by
    cases g
    simp only [start_new_session, end_session, trackerInit]
    split_ifs <;> rfl
  rw [hmid]
  exact ⟨rfl, rfl, rfl, rfl, rfl, rfl⟩

/-- C7 (counterexample): the summary `end_session` produces for a 60-second
session reports duration 1, not 60 — the code divides by 60 and reports
minutes, not seconds; the average EAR after recording the single sample
1/100000 is 0, not 1/100000 — samples are stored rounded to 4 decimals; and
ending when no session is active yields NO summary at all, not an empty/zero
one. -/
theorem session_end_counterexample :
    ((end_session 60 (start_new_session 0 initG).2).1.map Summary.duration ≠
      some 60) ∧
    ((end_session 60 (recordAll [1/100000]
        (start_new_session 0 initG).2)).1.map Summary.avg_ear ≠
      some (1/100000)) ∧
    ((end_session 60 initG).1 ≠
      some { duration := 0, sample_count := 0, avg_ear := 0, alerts := 0,
             blinks := 0 }) := by
  have hf : ⌊(1/10 : ℚ)⌋ = 0 := by
    apply Int.floor_eq_iff.mpr
    constructor <;> norm_num
  have hr : round4 ((1:ℚ)/100000) = 0 := by
    have hm : ((1:ℚ)/100000) * 10000 = 1/10 := by norm_num
    unfold round4 roundHalfEven
    rw [hm, hf]
    norm_num
  refine ⟨?_, ?_, ?_⟩
  · have h : (end_session 60 (start_new_session 0 initG).2).1.map Summary.duration =
        some (((60 : ℚ) - 0) / 60) := rfl
    rw [h]
    intro hc
    have h2 : ((60 : ℚ) - 0) / 60 = 60 := Option.some.inj hc
    norm_num at h2
  · have hg : recordAll [(1:ℚ)/100000] (start_new_session 0 initG).2 =
        { initG with session_ear_values := [round4 ((1:ℚ)/100000)],
                     current_ear := 1/100000, session_start_time := some 0,
                     session_active := true, session_tracker := true } := rfl
    rw [hg, hr]
    intro hc
    have h2 := Option.some.inj hc
    norm_num [end_session] at h2
  · exact fun hc => Option.noConfusion hc

/-- C7 (amended): for a fresh session started at `t0` into which the samples
`xs` are recorded, `end_session` at `t1` yields the summary with duration
`(t1 - t0)/60` (MINUTES, not seconds), `sample_count = xs.length`, average EAR
equal to the mean of the 4-decimal-ROUNDED stored samples (`0` when there are
none), the alert count and the blink count, and marks the session inactive;
`end_session` with no active session is a no-op that produces NO summary (and
is not an error). -/
theorem session_end_contract (xs : List ℚ) (t0 t1 : ℚ) :
    ((end_session t1 (recordAll xs (start_new_session t0 initG).2)).1 =
      some { duration := (t1 - t0) / 60, sample_count := xs.length,
             avg_ear := if xs = [] then 0
                        else (xs.map round4).sum / (xs.length : ℚ),
             alerts := 0, blinks := 0 }) ∧
    ((end_session t1 (recordAll xs
        (start_new_session t0 initG).2)).2.session_active = false) ∧
    (∀ g : G, g.session_active = false → end_session t1 g = (none, g)) := by
  obtain ⟨h1, h2, h3, h4, h5⟩ := recordAll_fields xs ((start_new_session t0 initG).2)
  have hev : (recordAll xs (start_new_session t0 initG).2).session_ear_values =
      xs.map round4 := by
    rw [h1]
    show ([] : List ℚ) ++ xs.map round4 = xs.map round4
    exact List.nil_append _
  have hal : (recordAll xs (start_new_session t0 initG).2).session_alerts = 0 := by
    rw [h2]
    rfl
  have hac : (recordAll xs (start_new_session t0 initG).2).session_active = true := by
    rw [h3]
    rfl
  have hst : (recordAll xs (start_new_session t0 initG).2).session_start_time =
      some t0 := by
    rw [h4]
    rfl
  have hbc : (recordAll xs (start_new_session t0 initG).2).blinkCount = 0 := by
    rw [h5]
    rfl
  refine ⟨?_, ?_, ?_⟩
  · unfold end_session
    rw [if_pos hac, hev, hal, hst, hbc]
    simp only [Option.getD_some, List.length_map, List.map_eq_nil_iff]
  · unfold end_session
    rw [if_pos hac]
  · intro g hg
    unfold end_session
    rw [if_neg (by simp [hg])]

/-- C7 (witness for the amended theorem): two samples `1/2` and `1/4` over a
120-second session give duration 2 minutes, count 2, average `3/8`, and
ending the never-started initial state is a no-op. -/
theorem session_end_contract_witness :
    ((end_session 120 (recordAll [1/2, 1/4] (start_new_session 0 initG).2)).1 =
      some { duration := 2, sample_count := 2, avg_ear := 3/8, alerts := 0,
             blinks := 0 }) ∧
    end_session 120 initG = (none, initG) := by
  have hr1 : round4 ((1:ℚ)/2) = 1/2 := by
    have hm : ((1:ℚ)/2) * 10000 = 5000 := by norm_num
    have hf : ⌊(5000:ℚ)⌋ = 5000 := by
      rw [show ((5000:ℚ)) = ((5000:ℤ):ℚ) by norm_num]
      exact Int.floor_intCast 5000
    unfold round4 roundHalfEven
    rw [hm, hf]
    norm_num
  have hr2 : round4 ((1:ℚ)/4) = 1/4 := by
    have hm : ((1:ℚ)/4) * 10000 = 2500 := by norm_num
    have hf : ⌊(2500:ℚ)⌋ = 2500 := by
      rw [show ((2500:ℚ)) = ((2500:ℤ):ℚ) by norm_num]
      exact Int.floor_intCast 2500
    unfold round4 roundHalfEven
    rw [hm, hf]
    norm_num
  have h := session_end_contract [1/2, 1/4] 0 120
  refine ⟨?_, h.2.2 initG rfl⟩
  rw [h.1]
  simp only [List.map_cons, List.map_nil, hr1, hr2, List.sum_cons, List.sum_nil]
  norm_num
  simp

/-- C8 (counterexample): called while a session is active, `start_new_session`
does not fail and does not leave things untouched: it emits the old session's
summary (an implicit `end_session`) and opens a new record with a new start
time. -/
theorem session_start_counterexample :
    ((start_new_session 7 gPrev).1 ≠ none) ∧
    ((start_new_session 7 gPrev).2 ≠ gPrev) := by
  constructor
  · exact fun hc => Option.noConfusion hc
  · intro hc
    have h2 : (some (7:ℚ)) = some 0 := congrArg G.session_start_time hc
    simp at h2

/-- C8 (amended): `start_new_session` never fails.  When a tracker is present
and a session is active, it first ends that session — emitting its full
summary, so the data is not silently discarded — and then opens the new
session: active, stamped with the new start time, with the (carried-over)
sample list intact. -/
theorem session_start_implicit_end (g : G) (now : ℚ)
    (htr : g.session_tracker = true) (hac : g.session_active = true) :
    ((start_new_session now g).1 =
      some { duration := (now - g.session_start_time.getD 0) / 60,
             sample_count := g.session_ear_values.length,
             avg_ear := if g.session_ear_values = [] then 0
                        else g.session_ear_values.sum / (g.session_ear_values.length : ℚ),
             alerts := g.session_alerts, blinks := g.blinkCount }) ∧
    ((start_new_session now g).2.session_active = true) ∧
    ((start_new_session now g).2.session_start_time = some now) ∧
    ((start_new_session now g).2.session_ear_values = g.session_ear_values) := by
  simp [start_new_session, end_session, trackerInit, htr, hac]

/-- C8 (witness for the amended theorem): the concrete instance on the
leftover active state `gPrev` at instant 7. -/
theorem session_start_implicit_end_witness :
    ((start_new_session 7 gPrev).1 =
      some { duration := 7/60, sample_count := 1, avg_ear := 1/2, alerts := 1,
             blinks := 0 }) ∧
    ((start_new_session 7 gPrev).2.session_active = true) ∧
    ((start_new_session 7 gPrev).2.session_start_time = some 7) ∧
    ((start_new_session 7 gPrev).2.session_ear_values =
      gPrev.session_ear_values) := by
  have h := session_start_implicit_end gPrev 7 rfl rfl
  refine ⟨?_, h.2.1, h.2.2.1, h.2.2.2⟩
  rw [h.1]
  norm_num [gPrev, initG]

end FatigueCheck
